import Mathlib

/-!
Verification of the note-store and access-control contract of a small
note-taking service (FastAPI HTTP facade + Telegram bot gateway over a
single SQLite table of notes).

Shallow embedding conventions:
- the SQLite table is a `Store`: the list of rows in insertion (rowid)
  order plus the AUTOINCREMENT counter `nextId` (ids start at 1 and are
  never reused after deletes, matching INTEGER PRIMARY KEY AUTOINCREMENT);
- `random.choice(colors)` is modelled by an oracle index `colorIdx`
  reduced modulo the length of the color list;
- `CURRENT_TIMESTAMP` / `datetime.now()` is an explicit parameter `t`;
- each HTTP endpoint is a pure function returning `Except HTTPError r`
  (an `HTTPException(status, detail)` or the JSON payload), paired with
  the resulting store for the mutating endpoint.
-/

namespace NoteApp

/-- Configured secret default: os.getenv("SECRET_PASSWORD", "12345"). -/
def SECRET_PASSWORD : String := "12345"

/-- The fixed color list of get_random_color. -/
def colors : List String :=
  ["color-yellow", "color-pink", "color-cyan", "color-orange",
   "color-blue", "color-green", "color-lavender", "color-peach"]

/-- random.choice(colors), with the randomness supplied as an index. -/
def get_random_color (i : Nat) : String :=
  colors.getD (i % colors.length) "color-yellow"

/-- A row of the notes table. -/
structure Note where
  id : Nat
  question : String
  created_at : Nat
  color : String
  telegram_user_id : Option Int
  telegram_username : Option String
deriving Repr, DecidableEq

/-- Pydantic request model NoteCreate. -/
structure NoteCreate where
  question : String
  telegram_user_id : Option Int := none
  telegram_username : Option String := none
deriving Repr, DecidableEq

/-- The notes table plus the AUTOINCREMENT counter. -/
structure Store where
  notes : List Note
  nextId : Nat
deriving Repr, DecidableEq

/-- The table created by init_db: no rows, first rowid is 1. -/
def emptyStore : Store := ⟨[], 1⟩

/-- fastapi.HTTPException as raised by the endpoints. -/
structure HTTPError where
  status : Nat
  detail : String
deriving Repr, DecidableEq

/-- Detail string shared by the three guarded endpoints on auth failure. -/
def authDetail : String := "Parol talab qilinadi yoki noto'g'ri"

/-- POST /api/check-password: payload is (authorized, message). -/
def check_password (secret : String) (password : String) :
    Except HTTPError (Bool × String) :=
  if password = secret then .ok (true, "Parol to'g'ri")
  else .error ⟨401, "Parol noto'g'ri"⟩

/-- Stable insertion of a note into a created_at-descending list. -/
def insertDesc (n : Note) : List Note → List Note
  | [] => [n]
  | m :: ms => if n.created_at ≤ m.created_at then m :: insertDesc n ms
               else n :: m :: ms

/-- ORDER BY created_at DESC, realised as a stable insertion sort. -/
def sortDesc : List Note → List Note
  | [] => []
  | n :: ns => insertDesc n (sortDesc ns)

/-- GET /api/notes?password=... -/
def get_notes (secret : String) (password : Option String) (s : Store) :
    Except HTTPError (List Note) :=
  if password ≠ some secret then .error ⟨401, authDetail⟩
  else .ok (sortDesc s.notes)

/-- POST /api/notes: INSERT, then SELECT the new row back; returns it. -/
def create_note (note : NoteCreate) (colorIdx t : Nat) (s : Store) :
    Note × Store :=
  let color := get_random_color colorIdx
  let newNote : Note :=
    { id := s.nextId, question := note.question, created_at := t,
      color := color,
      telegram_user_id := note.telegram_user_id,
      telegram_username := note.telegram_username }
  (newNote, { notes := s.notes ++ [newNote], nextId := s.nextId + 1 })

/-- Response payload of DELETE /api/notes. -/
structure DeleteResponse where
  message : String
  id : Nat
deriving Repr, DecidableEq

/-- DELETE /api/notes/{note_id}?password=...: guard, SELECT, then DELETE. -/
def delete_note (secret : String) (note_id : Nat) (password : Option String)
    (s : Store) : Except HTTPError DeleteResponse × Store :=
  if password ≠ some secret then (.error ⟨401, authDetail⟩, s)
  else
    match s.notes.find? (fun n => n.id = note_id) with
    | none => (.error ⟨404, "Savol topilmadi"⟩, s)
    | some _ =>
      (.ok ⟨"Savol o'chirildi", note_id⟩,
       { s with notes := s.notes.filter (fun n => n.id ≠ note_id) })

/-- Response payload of GET /api/stats. -/
structure StatsResponse where
  total_notes : Nat
  total_users : Nat
  last_note : Option Nat
  timestamp : Nat
deriving Repr, DecidableEq

/-- GET /api/stats?password=...: COUNT, COUNT(DISTINCT non-null uid),
newest created_at (ORDER BY created_at DESC LIMIT 1), current time. -/
def get_stats (secret : String) (password : Option String) (t : Nat)
    (s : Store) : Except HTTPError StatsResponse :=
  if password ≠ some secret then .error ⟨401, authDetail⟩
  else
    .ok { total_notes := s.notes.length,
          total_users := ((s.notes.filterMap Note.telegram_user_id).dedup).length,
          last_note := (sortDesc s.notes).head?.map Note.created_at,
          timestamp := t }

/-- The update.effective_user fields used by the bot handlers. -/
structure TgUser where
  id : Int
  username : Option String
  first_name : String
deriving Repr, DecidableEq

/-- Python `a or b` on an optional string: falls through on None and "". -/
def pyOrStr (u : Option String) (fallback : String) : String :=
  match u with
  | some s => if s = "" then fallback else s
  | none => fallback

/-- Bot free-text handler: INSERT the message text as a note with the
sender identity, reply with one confirmation message naming the new id. -/
def handle_message (user : TgUser) (text : String) (colorIdx t : Nat)
    (s : Store) : String × Store :=
  let color := get_random_color colorIdx
  let newNote : Note :=
    { id := s.nextId, question := text, created_at := t, color := color,
      telegram_user_id := some user.id,
      telegram_username := some (pyOrStr user.username user.first_name) }
  let s2 : Store := { notes := s.notes ++ [newNote], nextId := s.nextId + 1 }
  ("✅ Savolingiz saqlandi! (ID: " ++ toString newNote.id ++
     ")\n🌐 Web sahifada ko'rishingiz mumkin.", s2)

/-- Bot /stats handler reply text (unguarded read of the same counts). -/
def stats_command (t : Nat) (s : Store) : String :=
  "📊 Statistika:\n\n📝 Jami savollar: " ++ toString s.notes.length ++
    "\n👥 Foydalanuvchilar: " ++
    toString ((s.notes.filterMap Note.telegram_user_id).dedup).length ++
    "\n⏰ Vaqt: " ++ toString t

/-- The two store-mutating operations, for reasoning about histories. -/
inductive Op where
  | opCreate (note : NoteCreate) (colorIdx t : Nat)
  | opDelete (noteId : Nat) (password : Option String)
deriving Repr

/-- Effect of one operation on the store. -/
def applyOp (secret : String) (s : Store) : Op → Store
  | .opCreate nc cIdx t => (create_note nc cIdx t s).2
  | .opDelete nid pw => (delete_note secret nid pw s).2

/-- One step of a run that also records every id handed out by create. -/
def stepIds (secret : String) (acc : Store × List Nat) (op : Op) :
    Store × List Nat :=
  match op with
  | .opCreate nc cIdx t =>
    let r := create_note nc cIdx t acc.1
    (r.2, acc.2 ++ [r.1.id])
  | .opDelete nid pw => ((delete_note secret nid pw acc.1).2, acc.2)

/-- Run a history from the empty table, collecting all created ids. -/
def runIds (secret : String) (ops : List Op) : Store × List Nat :=
  ops.foldl (stepIds secret) (emptyStore, [])

/-- Fold a batch of creates over a store (question, colorIdx, time). -/
def insertAll (entries : List (NoteCreate × Nat × Nat)) (s : Store) : Store :=
  entries.foldl (fun st e => (create_note e.1 e.2.1 e.2.2 st).2) s

/-- Table well-formedness: every id is below the counter, ids unique. -/
def StoreWF (s : Store) : Prop :=
  (∀ n ∈ s.notes, n.id < s.nextId) ∧ (s.notes.map Note.id).Nodup

instance (s : Store) : Decidable (StoreWF s) :=
  inferInstanceAs
    (Decidable ((∀ n ∈ s.notes, n.id < s.nextId) ∧ (s.notes.map Note.id).Nodup))

instance {ε α : Type} [DecidableEq ε] [DecidableEq α] :
    DecidableEq (Except ε α)
  | .ok a, .ok b =>
    if h : a = b then .isTrue (by rw [h]) else .isFalse (by simp [h])
  | .ok _, .error _ => .isFalse (by simp)
  | .error _, .ok _ => .isFalse (by simp)
  | .error e, .error f =>
    if h : e = f then .isTrue (by rw [h]) else .isFalse (by simp [h])

/-! ### Helper lemmas -/

theorem get_random_color_mem (i : Nat) : get_random_color i ∈ colors := by
  have h : i % colors.length < colors.length := Nat.mod_lt _ (by decide)
  rw [get_random_color, List.getD_eq_getElem _ _ h]
  exact List.getElem_mem h

theorem insertDesc_perm (n : Note) (l : List Note) :
    (insertDesc n l).Perm (n :: l) := by
  induction l with
  | nil => simp [insertDesc]
  | cons m ms ih =>
    rw [insertDesc]
    split
    · exact (ih.cons m).trans (List.Perm.swap n m ms)
    · exact .refl _

theorem insertDesc_pairwise {n : Note} {l : List Note}
    (h : l.Pairwise (fun a b => b.created_at ≤ a.created_at)) :
    (insertDesc n l).Pairwise (fun a b => b.created_at ≤ a.created_at) := by
  induction l with
  | nil => simp [insertDesc]
  | cons m ms ih =>
    rw [List.pairwise_cons] at h
    obtain ⟨hm, hms⟩ := h
    rw [insertDesc]
    split
    · rename_i hle
      refine List.pairwise_cons.mpr ⟨?_, ih hms⟩
      intro x hx
      rcases List.mem_cons.mp ((insertDesc_perm n ms).mem_iff.mp hx) with hxn | hxm
      · exact hxn ▸ hle
      · exact hm x hxm
    · rename_i hgt
      refine List.pairwise_cons.mpr ⟨?_, List.pairwise_cons.mpr ⟨hm, hms⟩⟩
      intro x hx
      rcases List.mem_cons.mp hx with hxm | hxms
      · exact hxm ▸ Nat.le_of_not_le hgt
      · exact Nat.le_trans (hm x hxms) (Nat.le_of_not_le hgt)

theorem sortDesc_pairwise (l : List Note) :
    (sortDesc l).Pairwise (fun a b => b.created_at ≤ a.created_at) := by
  induction l with
  | nil => simp [sortDesc]
  | cons n ns ih => exact insertDesc_pairwise ih

theorem sortDesc_perm (l : List Note) : (sortDesc l).Perm l := by
  induction l with
  | nil => simp [sortDesc]
  | cons n ns ih => exact (insertDesc_perm n (sortDesc ns)).trans (ih.cons n)

theorem insertDesc_append {n : Note} {l : List Note}
    (h : ∀ m ∈ l, n.created_at ≤ m.created_at) : insertDesc n l = l ++ [n] := by
  induction l with
  | nil => rfl
  | cons m ms ih =>
    rw [insertDesc, if_pos (h m (List.mem_cons_self m ms))]
    rw [ih fun x hx => h x (List.mem_cons_of_mem m hx)]
    rfl

theorem sortDesc_of_strict_incr {l : List Note}
    (h : l.Pairwise (fun a b => a.created_at < b.created_at)) :
    sortDesc l = l.reverse := by
  induction l with
  | nil => rfl
  | cons n ns ih =>
    rw [List.pairwise_cons] at h
    obtain ⟨hn, hns⟩ := h
    rw [sortDesc, ih hns, insertDesc_append, List.reverse_cons]
    intro m hm
    exact Nat.le_of_lt (hn m (List.mem_reverse.mp hm))

theorem delete_note_nextId (secret : String) (nid : Nat) (pw : Option String)
    (s : Store) : (delete_note secret nid pw s).2.nextId = s.nextId := by
  rw [delete_note]
  split
  · rfl
  · split <;> rfl

theorem insertAll_map_created_at (entries : List (NoteCreate × Nat × Nat))
    (s : Store) :
    (insertAll entries s).notes.map Note.created_at =
      s.notes.map Note.created_at ++ entries.map (fun e => e.2.2) := by
  induction entries generalizing s with
  | nil => simp [insertAll]
  | cons e es ih =>
    rw [insertAll, List.foldl_cons]
    have := ih (create_note e.1 e.2.1 e.2.2 s).2
    rw [insertAll] at this
    rw [this]
    simp [create_note]

theorem stepIds_fold_inv (secret : String) (ops : List Op)
    (acc : Store × List Nat) (h : ∀ i ∈ acc.2, i < acc.1.nextId) :
    ∀ i ∈ (ops.foldl (stepIds secret) acc).2,
      i < (ops.foldl (stepIds secret) acc).1.nextId := by
  induction ops generalizing acc with
  | nil => simpa using h
  | cons op rest ih =>
    rw [List.foldl_cons]
    apply ih
    cases op with
    | opCreate nc cIdx t =>
      intro i hi
      rw [stepIds] at hi ⊢
      simp only [List.mem_append, List.mem_singleton] at hi
      rcases hi with hi | hi
      · exact Nat.lt_succ_of_lt (h i hi)
      · rw [hi]; exact Nat.lt_succ_self _
    | opDelete nid pw =>
      intro i hi
      rw [stepIds] at hi ⊢
      rw [delete_note_nextId]
      exact h i hi

theorem runIds_lt_nextId (secret : String) (ops : List Op) :
    ∀ i ∈ (runIds secret ops).2, i < (runIds secret ops).1.nextId := by
  rw [runIds]
  exact stepIds_fold_inv secret ops (emptyStore, []) (by simp)

theorem filter_ne_id_length {l : List Note} {nid : Nat}
    (hnd : (l.map Note.id).Nodup) {n : Note} (hn : n ∈ l) (hid : n.id = nid) :
    (l.filter (fun m => m.id ≠ nid)).length + 1 = l.length := by
  induction l with
  | nil => cases hn
  | cons m ms ih =>
    rw [List.map_cons, List.nodup_cons] at hnd
    obtain ⟨hm, hms⟩ := hnd
    rcases List.mem_cons.mp hn with rfl | hnms
    · have h2 : ms.filter (fun m => m.id ≠ nid) = ms := by
        apply List.filter_eq_self.mpr
        intro x hx
        have hxmem : x.id ∈ ms.map Note.id := List.mem_map_of_mem Note.id hx
        simp only [ne_eq, decide_eq_true_eq]
        intro hxid
        apply hm
        rw [hid, ← hxid]
        exact hxmem
      rw [List.filter_cons_of_neg (by simp [hid]), h2, List.length_cons]
    · have hmne : m.id ≠ nid := by
        intro hmid
        apply hm
        have hx : n.id ∈ ms.map Note.id := List.mem_map_of_mem Note.id hnms
        rwa [hid, ← hmid] at hx
      rw [List.filter_cons_of_pos (by simp [hmne]), List.length_cons,
        List.length_cons, ih hms hnms]

/-! ### Claim theorems -/

/-- Claim C1: every guarded endpoint (list, delete, stats) rejects a request
whose password is absent or differs from the configured secret with a 401
authorization failure, leaving the store untouched; in particular delete of
an existing id with a wrong password is rejected, not answered not-found. -/
theorem C1_guarded_endpoints_reject_bad_password
    (secret : String) (pw : Option String) (h : pw ≠ some secret)
    (s : Store) (nid t : Nat) :
    get_notes secret pw s = .error ⟨401, authDetail⟩ ∧
    delete_note secret nid pw s = (.error ⟨401, authDetail⟩, s) ∧
    get_stats secret pw t s = .error ⟨401, authDetail⟩ := by
  refine ⟨?_, ?_, ?_⟩
  · rw [get_notes, if_pos h]
  · rw [delete_note, if_pos h]
  · rw [get_stats, if_pos h]

/-- Witness for C1: wrong password "12346" against secret "12345", on a
store that does contain the targeted id 1. -/
theorem C1_guarded_endpoints_reject_bad_password_witness :
    some "12346" ≠ some SECRET_PASSWORD ∧
    delete_note SECRET_PASSWORD 1 (some "12346")
        ⟨[⟨1, "q", 0, "color-blue", none, none⟩], 2⟩ =
      (.error ⟨401, authDetail⟩, ⟨[⟨1, "q", 0, "color-blue", none, none⟩], 2⟩) :=
  ⟨by decide,
   (C1_guarded_endpoints_reject_bad_password SECRET_PASSWORD (some "12346")
      (by decide) ⟨[⟨1, "q", 0, "color-blue", none, none⟩], 2⟩ 1 0).2.1⟩

/-- Claim C2: the password check succeeds exactly when the candidate equals
the configured secret as a case-sensitive string; for secret "12345",
candidate "12345" is authorized while "12346" and "" are rejected. -/
theorem C2_check_password_iff :
    (∀ secret cand : String,
      (∃ v, check_password secret cand = .ok v) ↔ cand = secret) ∧
    check_password SECRET_PASSWORD "12345" = .ok (true, "Parol to'g'ri") ∧
    check_password SECRET_PASSWORD "12346" =
      .error ⟨401, "Parol noto'g'ri"⟩ ∧
    check_password SECRET_PASSWORD "" = .error ⟨401, "Parol noto'g'ri"⟩ := by
  refine ⟨?_, by decide, by decide, by decide⟩
  intro secret cand
  constructor
  · rintro ⟨v, hv⟩
    by_contra hne
    rw [check_password, if_neg hne] at hv
    cases hv
  · intro h
    exact ⟨(true, "Parol to'g'ri"), by rw [check_password, if_pos h]⟩

/-- Claim C3: create returns a record carrying the question verbatim, an id
strictly above every id handed out by any earlier create of the history
(whether that note was deleted since or not), and a color from the fixed
8-label set. -/
theorem C3_create_question_id_color (secret : String) (ops : List Op)
    (nc : NoteCreate) (cIdx t : Nat) :
    (create_note nc cIdx t (runIds secret ops).1).1.question = nc.question ∧
    (create_note nc cIdx t (runIds secret ops).1).1.color ∈
      ["color-yellow", "color-pink", "color-cyan", "color-orange",
       "color-blue", "color-green", "color-lavender", "color-peach"] ∧
    ∀ i ∈ (runIds secret ops).2,
      i < (create_note nc cIdx t (runIds secret ops).1).1.id := by
  exact ⟨rfl, get_random_color_mem cIdx, runIds_lt_nextId secret ops⟩

/-- Claim C4: with the correct password the list endpoint returns all notes
sorted by created_at descending; inserting N notes into the empty store at
strictly increasing timestamps lists exactly N records back in reverse
insertion order. -/
theorem C4_list_sorted_desc (secret : String) (s : Store)
    (entries : List (NoteCreate × Nat × Nat))
    (hmono : (entries.map (fun e => e.2.2)).Pairwise (· < ·)) :
    (get_notes secret (some secret) s = .ok (sortDesc s.notes) ∧
     (sortDesc s.notes).Pairwise (fun a b => b.created_at ≤ a.created_at) ∧
     (sortDesc s.notes).Perm s.notes) ∧
    (get_notes secret (some secret) (insertAll entries emptyStore) =
       .ok ((insertAll entries emptyStore).notes.reverse) ∧
     (insertAll entries emptyStore).notes.length = entries.length) := by
  have hget : ∀ st : Store,
      get_notes secret (some secret) st = .ok (sortDesc st.notes) := by
    intro st
    rw [get_notes, if_neg (by simp)]
  have hmap : (insertAll entries emptyStore).notes.map Note.created_at =
      entries.map (fun e => e.2.2) := by
    have h := insertAll_map_created_at entries emptyStore
    simpa [emptyStore] using h
  refine ⟨⟨hget s, sortDesc_pairwise _, sortDesc_perm _⟩, ?_, ?_⟩
  · rw [hget]
    have hpw : (insertAll entries emptyStore).notes.Pairwise
        (fun a b => a.created_at < b.created_at) := by
      apply List.pairwise_map.mp
      rw [hmap]
      exact hmono
    rw [sortDesc_of_strict_incr hpw]
  · have hlen := congrArg List.length hmap
    simpa using hlen

/-- Witness for C4: two inserts at times 1 < 2 list back newest first. -/
theorem C4_list_sorted_desc_witness :
    (([(⟨"a", none, none⟩, 0, 1), (⟨"b", none, none⟩, 1, 2)] :
        List (NoteCreate × Nat × Nat)).map (fun e => e.2.2)).Pairwise
      (· < ·) ∧
    get_notes "12345" (some "12345")
        (insertAll [(⟨"a", none, none⟩, 0, 1), (⟨"b", none, none⟩, 1, 2)]
          emptyStore) =
      .ok ((insertAll [(⟨"a", none, none⟩, 0, 1), (⟨"b", none, none⟩, 1, 2)]
          emptyStore).notes.reverse) :=
  ⟨by decide,
   (C4_list_sorted_desc "12345" emptyStore
      [(⟨"a", none, none⟩, 0, 1), (⟨"b", none, none⟩, 1, 2)]
      (by decide)).2.1⟩

/-- Claim C5: with the correct password, delete of an id not in the table
answers not-found and leaves the store exactly as it was; delete of a
present id answers the confirmation message together with the removed id,
and that id is gone from the table. -/
theorem C5_delete_not_found_or_removes (secret : String) (s : Store)
    (nid : Nat) :
    ((∀ n ∈ s.notes, n.id ≠ nid) →
      delete_note secret nid (some secret) s =
        (.error ⟨404, "Savol topilmadi"⟩, s)) ∧
    (∀ n ∈ s.notes, n.id = nid →
      (delete_note secret nid (some secret) s).1 =
        .ok ⟨"Savol o'chirildi", nid⟩ ∧
      ∀ m ∈ (delete_note secret nid (some secret) s).2.notes, m.id ≠ nid) := by
  constructor
  · intro habs
    have hf : s.notes.find? (fun n => decide (n.id = nid)) = none :=
      List.find?_eq_none.mpr (by intro x hx; simpa using habs x hx)
    rw [delete_note, if_neg (by simp), hf]
  · intro n hn hid
    have hsome : (s.notes.find? (fun x => decide (x.id = nid))).isSome := by
      rw [List.find?_isSome]
      exact ⟨n, hn, by simp [hid]⟩
    obtain ⟨m0, hm0⟩ := Option.isSome_iff_exists.mp hsome
    refine ⟨?_, ?_⟩
    · rw [delete_note, if_neg (by simp), hm0]
    · intro x hx
      have hx' : x ∈ s.notes.filter (fun m => decide (m.id ≠ nid)) := by
        have heq : (delete_note secret nid (some secret) s).2.notes =
            s.notes.filter (fun m => decide (m.id ≠ nid)) := by
          rw [delete_note, if_neg (by simp), hm0]
        rwa [heq] at hx
      simpa using List.of_mem_filter hx'

/-- Claim C6: with the correct password, stats reports the exact table size
as total_notes and the number of distinct non-null telegram_user_id values
as total_users; concretely, creating three notes (two from submitter 7, one
anonymous) and then deleting one leaves total_notes 2 and total_users 1. -/
theorem C6_stats_counts (secret : String) (pw : Option String) (t : Nat)
    (s : Store) (h : pw = some secret) :
    (get_stats secret pw t s = .ok
        ⟨s.notes.length,
         (s.notes.filterMap Note.telegram_user_id).toFinset.card,
         (sortDesc s.notes).head?.map Note.created_at, t⟩) ∧
    get_stats "12345" (some "12345") 9
        (applyOp "12345"
          (applyOp "12345"
            (applyOp "12345"
              (applyOp "12345" emptyStore
                (.opCreate ⟨"a", some 7, some "u"⟩ 0 1))
              (.opCreate ⟨"b", some 7, some "u"⟩ 1 2))
            (.opCreate ⟨"c", none, none⟩ 2 3))
          (.opDelete 3 (some "12345"))) =
      .ok ⟨2, 1, some 2, 9⟩ := by
  refine ⟨?_, by decide⟩
  rw [get_stats, if_neg (by simp [h]), List.card_toFinset]

/-- Witness for C6 at the secret "12345" and a one-note store. -/
theorem C6_stats_counts_witness :
    get_stats "12345" (some "12345") 9 ⟨[⟨1, "a", 1, "c", some 7, none⟩], 2⟩ =
      .ok ⟨1, 1, some 1, 9⟩ := by
  have h := (C6_stats_counts "12345" (some "12345") 9
      ⟨[⟨1, "a", 1, "c", some 7, none⟩], 2⟩ rfl).1
  rw [h]
  decide

/-- Claim C7 as stated fails on the code: one unguarded HTTP create call
reaches a store holding a note whose telegram_user_id is set while its
telegram_username is absent. -/
theorem C7_identity_fields_cex :
    ¬ (∀ n ∈ ((create_note ⟨"q", some 1, none⟩ 0 0 emptyStore).2).notes,
        (n.telegram_user_id.isSome ∧ n.telegram_username.isSome) ∨
        (n.telegram_user_id.isNone ∧ n.telegram_username.isNone)) := by
  decide

/-- Claim C7 amended: the identity fields are not independently validated:
create persists exactly the combination the caller supplies, so one field
may be set without the other; notes created through the bot handler always
carry both fields. -/
theorem C7_identity_fields_uncoupled (nc : NoteCreate) (cIdx t : Nat)
    (s : Store) (u : TgUser) (text : String) :
    ((create_note nc cIdx t s).1.telegram_user_id = nc.telegram_user_id ∧
     (create_note nc cIdx t s).1.telegram_username = nc.telegram_username) ∧
    ∃ n : Note, (handle_message u text cIdx t s).2.notes = s.notes ++ [n] ∧
      n.telegram_user_id.isSome ∧ n.telegram_username.isSome := by
  exact ⟨⟨rfl, rfl⟩, ⟨_, rfl, rfl, rfl⟩⟩

/-- Claim C8: on a plain text message the bot appends exactly one note
carrying the full text, the sender id, and the username (the first name
when no username exists), and sends one reply that contains the new note
id; submitting "Hello" as sender 42 with username "alice" stores exactly
one note ("Hello", 42, "alice"). -/
theorem C8_handle_message_stores_and_replies (u : TgUser) (text : String)
    (cIdx t : Nat) (s : Store) :
    (∃ n : Note,
      (handle_message u text cIdx t s).2.notes = s.notes ++ [n] ∧
      n.question = text ∧
      n.telegram_user_id = some u.id ∧
      (∀ uname, u.username = some uname → uname ≠ "" →
        n.telegram_username = some uname) ∧
      (u.username = none → n.telegram_username = some u.first_name) ∧
      ∃ pre post, (handle_message u text cIdx t s).1 =
        pre ++ toString n.id ++ post) ∧
    (handle_message ⟨42, some "alice", "Alice"⟩ "Hello" 0 0
        emptyStore).2.notes.map
      (fun n => (n.question, n.telegram_user_id, n.telegram_username)) =
      [("Hello", some 42, some "alice")] := by
  constructor
  · refine ⟨_, rfl, rfl, rfl, ?_, ?_, ?_⟩
    · intro uname hu hne
      simp [pyOrStr, hu, hne]
    · intro hu
      simp [pyOrStr, hu]
    · exact ⟨"✅ Savolingiz saqlandi! (ID: ",
        ")\n🌐 Web sahifada ko'rishingiz mumkin.", rfl⟩
  · decide

/-- Claim C9: the unguarded HTTP create accepts the empty question: the
persisted record has question "" and is appended to the table whatever
submitter identity accompanies it. -/
theorem C9_create_accepts_empty_question (uid : Option Int)
    (uname : Option String) (cIdx t : Nat) (s : Store) :
    (create_note ⟨"", uid, uname⟩ cIdx t s).1.question = "" ∧
    (create_note ⟨"", uid, uname⟩ cIdx t s).2.notes =
      s.notes ++ [(create_note ⟨"", uid, uname⟩ cIdx t s).1] := by
  exact ⟨rfl, rfl⟩

/-- Claim C10: a successful delete removes exactly the targeted note: the
surviving rows are the original rows with the target filtered out, with
every field and the relative order intact, and the table shrinks by exactly
one row. -/
theorem C10_delete_frame (secret : String) (s : Store) (nid : Nat)
    (hwf : StoreWF s) (n : Note) (hn : n ∈ s.notes) (hid : n.id = nid) :
    (delete_note secret nid (some secret) s).2.notes =
      s.notes.filter (fun m => m.id ≠ nid) ∧
    (delete_note secret nid (some secret) s).2.notes.length + 1 =
      s.notes.length ∧
    ∀ m ∈ s.notes, m.id ≠ nid →
      m ∈ (delete_note secret nid (some secret) s).2.notes := by
  obtain ⟨-, hnd⟩ := hwf
  have hsome : (s.notes.find? (fun x => decide (x.id = nid))).isSome := by
    rw [List.find?_isSome]
    exact ⟨n, hn, by simp [hid]⟩
  obtain ⟨m0, hm0⟩ := Option.isSome_iff_exists.mp hsome
  have heq : (delete_note secret nid (some secret) s).2.notes =
      s.notes.filter (fun m => decide (m.id ≠ nid)) := by
    rw [delete_note, if_neg (by simp), hm0]
  refine ⟨heq, ?_, ?_⟩
  · rw [heq]
    exact filter_ne_id_length hnd hn hid
  · intro m hm hne
    rw [heq]
    exact List.mem_filter.mpr ⟨hm, by simp [hne]⟩

/-- Witness for C10 on a two-note store: deleting id 1 keeps one row. -/
theorem C10_delete_frame_witness :
    StoreWF ⟨[⟨1, "a", 0, "c", none, none⟩, ⟨2, "b", 1, "c", none, none⟩],
      3⟩ ∧
    (delete_note "12345" 1 (some "12345")
        ⟨[⟨1, "a", 0, "c", none, none⟩,
          ⟨2, "b", 1, "c", none, none⟩], 3⟩).2.notes.length + 1 = 2 :=
  ⟨by decide,
   (C10_delete_frame "12345"
      ⟨[⟨1, "a", 0, "c", none, none⟩, ⟨2, "b", 1, "c", none, none⟩], 3⟩ 1
      (by decide) ⟨1, "a", 0, "c", none, none⟩ (by decide) rfl).2.1⟩

end NoteApp
